import Mathlib

/-!
# xterm-addon-ligatures: LigatureJoinerService model

A shallow embedding of the ligature addon for xterm.js.  The repository
contains the addon's test suite (`src/unnamed/part_000`, including its
`MockTerminal`) and the terminal type declarations (`src/src/Types.ts`);
the addon implementation itself is absent, so the service is modelled
from the specification (`spec.md`), faithful to its words.  External
collaborators (system font index, ligature engine) are parameters of the
model, instantiated with the fixtures that the test suite stubs in.
-/

namespace Ligatures

/-- Modelled from the spec: `options.fontFamily` is "read as a string …
may be reassigned at any time by the host", and may also be "a malformed
font-family configuration value (e.g., a non-string configuration)".
A configuration value is therefore either a string or a non-string value
(the test assigns `{} as any`). -/
inductive ConfigVal where
  | str (s : String)
  | nonString
deriving DecidableEq, Repr

/-- Drop spaces at both ends of a character list. -/
def trimChars (cs : List Char) : List Char :=
  ((cs.dropWhile (fun c => c = ' ')).reverse.dropWhile (fun c => c = ' ')).reverse

/-- Strip one layer of surrounding double quotes, if present. -/
def stripQuotes (cs : List Char) : List Char :=
  match cs with
  | '"' :: rest =>
    if rest.getLast? = some '"' then rest.dropLast else cs
  | _ => cs

/-- Split a character list at commas. -/
def splitComma (cs : List Char) (acc : List Char) : List (List Char) :=
  match cs with
  | [] => [acc.reverse]
  | c :: rest =>
    if c = ',' then acc.reverse :: splitComma rest [] else splitComma rest (c :: acc)

/-- Modelled from the spec: `resolve` "parses the configuration string
into ordered, unquoted candidate names (handling both quoted names …
and bare names)"; a font-family list is "ordered sequence of candidate
font names (possibly quoted, comma-separated), parsed from a
configuration string". -/
def parseFontFamilies (s : String) : List String :=
  ((splitComma s.toList []).map (fun piece => String.mk (stripQuotes (trimChars piece)))).filter
    (fun n => n ≠ "")

/-- One installed-font record of the system font index: its file path and
whether the index reports it as monospace (`src/unnamed/part_000` stubs
`fontFinder.list` with entries carrying `path` and `type: Monospace`). -/
structure FontInfo where
  path : String
  monospace : Bool
deriving DecidableEq, Repr

/-- The system font index: a mapping from font family name to font info,
as stubbed in `src/unnamed/part_000` lines 23-45. -/
abbrev FontIndex := List (String × FontInfo)

/-- Look a candidate name up in the index, succeeding only when the
candidate "exists AND is reported as monospace" (spec, `resolve`). -/
def lookupMono (index : FontIndex) (name : String) : Option FontInfo :=
  match index.find? (fun e => e.1 = name) with
  | some e => if e.2.monospace then some e.2 else none
  | none => none

/-- Modelled from the spec: `resolve` "queries the system font index for
each candidate in order, and selects the first candidate that exists AND
is reported as monospace". -/
def resolveFamilies (index : FontIndex) : List String → Option FontInfo
  | [] => none
  | n :: rest =>
    match lookupMono index n with
    | some info => some info
    | none => resolveFamilies index rest

/-- Modelled from the spec: resolution of a configuration value; a
non-string configuration "simply fails to find any candidate". -/
def resolveConfig (index : FontIndex) : ConfigVal → Option FontInfo
  | .str s => resolveFamilies index (parseFontFamilies s)
  | .nonString => none

/-- A ligature rule set, viewed through the only operation the service
uses: "rule set exposes a function mapping input text to ordered,
non-overlapping character ranges" (spec, external interfaces). -/
abbrev RuleSet := String → List (Nat × Nat)

/-- The environment of external collaborators: the system font index
(`fontFinder.list`) and the ligature engine's loader
(`fontLigatures.loadFile`), which "may reject"; a rejection of any shape
is `none`. -/
structure Env where
  index : FontIndex
  loader : String → Option RuleSet

/-- The end-to-end result of resolving a configuration and loading the
resolved font's rules: `none` when "no candidate resolves" or on load
failure ("the failure is swallowed"). -/
def loadResult (env : Env) (c : ConfigVal) : Option RuleSet :=
  match resolveConfig env.index c with
  | some info => env.loader info.path
  | none => none

/-- Per-terminal observable state: the current font-family configuration,
the registered character-joiner slot (the `MockTerminal` of
`src/unnamed/part_000` keeps a single overwritable slot and returns id
`1`), the loaded `LigatureRuleSet` if any, and the number of `refresh`
calls observed by the terminal. -/
structure TermState where
  config : ConfigVal
  joinerSlot : Option Nat
  rules : Option RuleSet
  refreshCount : Nat

/-- A fresh `MockTerminal` (`src/unnamed/part_000` lines 190-215): no
joiner registered, nothing loaded, refresh stub never called. -/
def mkMockTerminal (c : ConfigVal) : TermState :=
  { config := c, joinerSlot := none, rules := none, refreshCount := 0 }

/-- Modelled from the spec: `enable(terminal)` is "idempotent
registration: installs a joiner callback on the given terminal and
begins font resolution"; "re-invocation on an already-enabled terminal
is a no-op beyond re-registering the callback".  Registration is
synchronous; the load it begins completes later via an `Event.load`. -/
def enableLigatures (t : TermState) : TermState :=
  { t with joinerSlot := some 1 }

/-- Modelled from the spec: the state machine transitions "back to
`Resolving` whenever the font-family configuration value changes
(comparison by value, not identity)"; in `Resolving` no rule set is
loaded for the current resolution. -/
def setFont (t : TermState) (c : ConfigVal) : TermState :=
  if c = t.config then t else { t with config := c, rules := none }

/-- Modelled from the spec: completion of the asynchronous load that was
started for configuration `c`.  "Each load request carries an implicit
'still relevant' check against the current resolved font before
committing its result"; a stale result "is discarded, not reported".  On
success it "stores the rule set, then signals the terminal's redraw
request mechanism"; on failure "the failure is swallowed — no exception
propagates, no refresh fires" (totality of this function models the
never-throws boundary). -/
def completeLoad (env : Env) (t : TermState) (c : ConfigVal) : TermState :=
  if c = t.config then
    match loadResult env c with
    | some rs => { t with rules := some rs, refreshCount := t.refreshCount + 1 }
    | none => t
  else t

/-- Modelled from the spec: `joiner(text)` is "the synchronous callback
handed to the terminal"; "if no LigatureRuleSet is loaded for the
current resolution: returns an empty sequence"; "if loaded: invokes the
rule set against `text`".  Totality models "must never throw regardless
of malformed `text`". -/
def joinerOutput (t : TermState) (text : String) : List (Nat × Nat) :=
  match t.rules with
  | some rs => rs text
  | none => []

/-- The joiner handler as registered on the terminal: defined exactly
when a registration is in place (`registerCharacterJoiner` has run). -/
def registeredJoiner (t : TermState) : Option (String → List (Nat × Nat)) :=
  match t.joinerSlot with
  | some _ => some (joinerOutput t)
  | none => none

/-- The events a terminal's service observes: the host reassigning
`options.fontFamily`, and an in-flight load (started when the
configuration was `c`) resolving. -/
inductive Event where
  | set (c : ConfigVal)
  | load (c : ConfigVal)

/-- One step of the per-terminal state machine. -/
def step (env : Env) (t : TermState) : Event → TermState
  | .set c => setFont t c
  | .load c => completeLoad env t c

/-- Run a sequence of events from a state. -/
def run (env : Env) (t : TermState) (evs : List Event) : TermState :=
  evs.foldl (step env) t

/-! ## Test fixtures

The test suite stubs the font index with three installed monospace fonts
and uses the input `"a -> b www c"`; its comment records that "`->`
forms a ligature in Fira Code and Iosevka, but `www` only forms a
ligature in Fira Code" (`src/unnamed/part_000` lines 18-20). -/

/-- Scan for the first occurrence of any pattern at each position,
consuming a match wholly before continuing (fuel-driven; the fuel is the
length of the text, and each step consumes at least one character). -/
def scanLigs (pats : List (List Char)) : Nat → List Char → Nat → List (Nat × Nat)
  | 0, _, _ => []
  | _, [], _ => []
  | fuel + 1, c :: rest, i =>
    match pats.find? (fun p => !p.isEmpty && p.isPrefixOf (c :: rest)) with
    | some p => (i, i + p.length) :: scanLigs pats fuel ((c :: rest).drop p.length) (i + p.length)
    | none => scanLigs pats fuel rest (i + 1)

/-- Modelled from the spec: a fixture rule set maps text to the ordered,
non-overlapping ranges of its ligature strings. -/
def ligatureRanges (pats : List String) (text : String) : List (Nat × Nat) :=
  scanLigs (pats.map String.toList) text.toList.length text.toList 0

/-- Modelled from the spec: the Fira Code fixture ligates both `->` and
`www`. -/
def firaCodeRanges : RuleSet := ligatureRanges ["->", "www"]

/-- Modelled from the spec: the Iosevka fixture "ligates `->` but not
`www`". -/
def iosevkaRanges : RuleSet := ligatureRanges ["->"]

/-- The stubbed system font index of `src/unnamed/part_000` lines 23-45:
Fira Code, Iosevka and "Nonexistant Font", all regular monospace. -/
def testIndex : FontIndex :=
  [("Fira Code", { path := "firaCode.otf", monospace := true }),
   ("Iosevka", { path := "iosevka.ttf", monospace := true }),
   ("Nonexistant Font", { path := "nonexistant.ttf", monospace := true })]

/-- The fixture loader: the Fira Code and Iosevka files load their rule
sets; `nonexistant.ttf` (and any other path) fails to load. -/
def testLoader (p : String) : Option RuleSet :=
  if p = "firaCode.otf" then some firaCodeRanges
  else if p = "iosevka.ttf" then some iosevkaRanges
  else none

/-- The fixture environment of the test suite. -/
def testEnv : Env := { index := testIndex, loader := testLoader }

/-- The environment of the test `ensures no empty errors are thrown`:
`fontLigatures.loadFile` is stubbed to reject with `undefined`, so every
load fails. -/
def rejectingEnv : Env := { index := testIndex, loader := fun _ => none }

/-- The test suite's shared input line (`src/unnamed/part_000` line 20). -/
def sampleInput : String := "a -> b www c"

/-! ## Two-terminal system

Modelled from the spec: "Multiple terminal instances are fully
independent; each owns its own font resolution and cache" — the system
state of two enabled terminals is the pair of their states, and each
event addresses exactly one of them. -/

/-- An event of the two-terminal system, tagged with the terminal it
addresses. -/
inductive TEvent where
  | e1 (e : Event)
  | e2 (e : Event)

/-- One step of the two-terminal system: the addressed terminal steps,
the other is untouched ("there is no shared mutable state between
terminal instances"). -/
def sysStep (env : Env) (p : TermState × TermState) : TEvent → TermState × TermState
  | .e1 e => (step env p.1 e, p.2)
  | .e2 e => (p.1, step env p.2 e)

/-- Run a sequence of tagged events over a two-terminal system. -/
def sysRun (env : Env) (p : TermState × TermState) (evs : List TEvent) :
    TermState × TermState :=
  evs.foldl (sysStep env) p

/-- The subsequence of events addressed to the first terminal. -/
def projT1 : List TEvent → List Event
  | [] => []
  | .e1 e :: rest => e :: projT1 rest
  | .e2 _ :: rest => projT1 rest

/-! ## Helper lemmas -/

theorem run_cons (env : Env) (t : TermState) (e : Event) (evs : List Event) :
    run env t (e :: evs) = run env (step env t e) evs := rfl

theorem refresh_le_step (env : Env) (t : TermState) (e : Event) :
    t.refreshCount ≤ (step env t e).refreshCount := by
  cases e with
  | set c =>
    simp only [step, setFont]
    split <;> exact le_refl _
  | load c =>
    simp only [step, completeLoad]
    split
    · split
      · exact Nat.le_succ _
      · exact le_refl _
    · exact le_refl _

theorem refresh_le_run (env : Env) (evs : List Event) :
    ∀ t : TermState, t.refreshCount ≤ (run env t evs).refreshCount := by
  induction evs with
  | nil => intro t; exact le_refl _
  | cons e rest ih =>
    intro t
    exact le_trans (refresh_le_step env t e) (ih (step env t e))

theorem rules_none_of_no_refresh (env : Env) (evs : List Event) :
    ∀ t : TermState, t.rules = none →
      (run env t evs).refreshCount = t.refreshCount → (run env t evs).rules = none := by
  induction evs with
  | nil => intro t h _; exact h
  | cons e rest ih =>
    intro t h hr
    rw [run_cons] at hr ⊢
    cases e with
    | set c =>
      have hrules : (step env t (.set c)).rules = none := by
        simp only [step, setFont]
        split
        · exact h
        · rfl
      have hcount : (step env t (.set c)).refreshCount = t.refreshCount := by
        simp only [step, setFont]
        split <;> rfl
      exact ih _ hrules (by rw [hr, hcount])
    | load c =>
      by_cases hc : c = t.config
      · subst hc
        cases hL : loadResult env t.config with
        | none =>
          have ht : step env t (.load t.config) = t := by
            simp [step, completeLoad, hL]
          rw [ht] at hr ⊢
          exact ih t h hr
        | some rs =>
          exfalso
          have ht : (step env t (.load t.config)).refreshCount = t.refreshCount + 1 := by
            simp [step, completeLoad, hL]
          have hle := refresh_le_run env rest (step env t (.load t.config))
          rw [ht] at hle
          omega
      · have ht : step env t (.load c) = t := by
          simp [step, completeLoad, hc]
        rw [ht] at hr ⊢
        exact ih t h hr

/-- The invariant behind the stale-discard rule: an installed rule set is
always the load result of the current configuration. -/
def rulesMatch (env : Env) (t : TermState) : Prop :=
  ∀ rs : RuleSet, t.rules = some rs → loadResult env t.config = some rs

theorem rulesMatch_step (env : Env) (t : TermState) (e : Event)
    (h : rulesMatch env t) : rulesMatch env (step env t e) := by
  cases e with
  | set c =>
    by_cases hc : c = t.config
    · simpa [step, setFont, hc] using h
    · intro rs hrs
      simp [step, setFont, hc] at hrs
  | load c =>
    by_cases hc : c = t.config
    · subst hc
      cases hL : loadResult env t.config with
      | none => simpa [step, completeLoad, hL] using h
      | some rs0 =>
        intro rs hrs
        simp only [step, completeLoad, if_pos rfl, hL] at hrs ⊢
        rw [← hrs]
        exact hL
    · simpa [step, completeLoad, hc] using h

theorem rulesMatch_run (env : Env) (evs : List Event) :
    ∀ t : TermState, rulesMatch env t → rulesMatch env (run env t evs) := by
  induction evs with
  | nil => intro t h; exact h
  | cons e rest ih =>
    intro t h
    exact ih _ (rulesMatch_step env t e h)

theorem run_loads_only_fail (env : Env) (t : TermState)
    (hres : loadResult env t.config = none) :
    ∀ evs : List Event, (∀ e ∈ evs, ∃ c, e = Event.load c) → run env t evs = t := by
  intro evs
  induction evs with
  | nil => intro _; rfl
  | cons e rest ih =>
    intro hevs
    obtain ⟨c, rfl⟩ := hevs e (List.mem_cons_self e rest)
    have hstep : step env t (.load c) = t := by
      by_cases hc : c = t.config
      · simp [step, completeLoad, hc, hres]
      · simp [step, completeLoad, hc]
    rw [run_cons, hstep]
    exact ih (fun e he => hevs e (List.mem_cons_of_mem _ he))

theorem sysRun_fst (env : Env) (evs : List TEvent) :
    ∀ p : TermState × TermState, (sysRun env p evs).1 = run env p.1 (projT1 evs) := by
  induction evs with
  | nil => intro p; rfl
  | cons e rest ih =>
    intro p
    cases e with
    | e1 e =>
      show (sysRun env (step env p.1 e, p.2) rest).1 = run env (step env p.1 e) (projT1 rest)
      exact ih (step env p.1 e, p.2)
    | e2 e =>
      show (sysRun env (p.1, step env p.2 e) rest).1 = run env p.1 (projT1 rest)
      exact ih (p.1, step env p.2 e)

theorem resolveFamilies_append_none (index : FontIndex) :
    ∀ pre : List String, (∀ m ∈ pre, lookupMono index m = none) →
      ∀ post : List String,
        resolveFamilies index (pre ++ post) = resolveFamilies index post := by
  intro pre
  induction pre with
  | nil => intro _ post; rfl
  | cons m rest ih =>
    intro hpre post
    have hm : lookupMono index m = none := hpre m (List.mem_cons_self m rest)
    show resolveFamilies index (m :: (rest ++ post)) = resolveFamilies index post
    simp only [resolveFamilies, hm]
    exact ih (fun x hx => hpre x (List.mem_cons_of_mem _ hx)) post

/-! ## Claims -/

/-- C1: a superseded font load is never installed: in every state a
terminal reaches, an installed rule set is exactly the load result of
the currently configured resolution — never that of an intermediate
configuration — and the joiner's ranges come from that rule set. -/
theorem C1_current_resolution_only (env : Env) (c : ConfigVal) (evs : List Event)
    (rs : RuleSet)
    (h : (run env (enableLigatures (mkMockTerminal c)) evs).rules = some rs) :
    loadResult env (run env (enableLigatures (mkMockTerminal c)) evs).config = some rs ∧
    ∀ text, joinerOutput (run env (enableLigatures (mkMockTerminal c)) evs) text = rs text := by
  have hinv : rulesMatch env (run env (enableLigatures (mkMockTerminal c)) evs) := by
    apply rulesMatch_run
    intro rs0 hrs0
    simp [enableLigatures, mkMockTerminal] at hrs0
  refine ⟨hinv rs h, fun text => ?_⟩
  simp [joinerOutput, h]

/-- Concrete instance of C1: starting from `Fira Code, monospace`, the
configuration changes to `Iosevka` before the first load resolves; the
superseded Fira Code load is discarded, and the installed rule set is
the one for the final configuration. -/
theorem C1_current_resolution_only_witness :
    (run testEnv (enableLigatures (mkMockTerminal (.str "Fira Code, monospace")))
        [.set (.str "Iosevka"), .load (.str "Fira Code, monospace"),
          .load (.str "Iosevka")]).rules = some iosevkaRanges ∧
    loadResult testEnv
        (run testEnv (enableLigatures (mkMockTerminal (.str "Fira Code, monospace")))
          [.set (.str "Iosevka"), .load (.str "Fira Code, monospace"),
            .load (.str "Iosevka")]).config = some iosevkaRanges ∧
    joinerOutput (run testEnv (enableLigatures (mkMockTerminal (.str "Fira Code, monospace")))
        [.set (.str "Iosevka"), .load (.str "Fira Code, monospace"),
          .load (.str "Iosevka")]) sampleInput = iosevkaRanges sampleInput :=
  have h := C1_current_resolution_only testEnv (.str "Fira Code, monospace")
    [.set (.str "Iosevka"), .load (.str "Fira Code, monospace"), .load (.str "Iosevka")]
    iosevkaRanges rfl
  ⟨rfl, h.1, h.2 sampleInput⟩

/-- C2: every failure mode is silent: whenever resolution-plus-load for
the current configuration fails, any sequence of load completions leaves
the joiner returning `[]` for every text with zero refresh calls (the
step functions are total, so no exception escapes the service boundary);
the concrete conjuncts exhibit the failure modes — empty-string
configuration, non-string configuration, font not installed, generic
family only, font found but its load failing, and the loader rejecting
with an undefined value. -/
theorem C2_failures_silent (env : Env) (c : ConfigVal) (evs : List Event)
    (hres : loadResult env c = none)
    (hevs : ∀ e ∈ evs, ∃ d, e = Event.load d) :
    ((∀ text, joinerOutput (run env (enableLigatures (mkMockTerminal c)) evs) text = []) ∧
      (run env (enableLigatures (mkMockTerminal c)) evs).refreshCount = 0) ∧
    loadResult testEnv (.str "") = none ∧
    loadResult testEnv .nonString = none ∧
    loadResult testEnv (.str "notinstalled") = none ∧
    loadResult testEnv (.str "monospace") = none ∧
    loadResult testEnv (.str "Nonexistant Font, monospace") = none ∧
    loadResult rejectingEnv (.str "Iosevka") = none := by
  have hid := run_loads_only_fail env (enableLigatures (mkMockTerminal c)) hres evs hevs
  refine ⟨⟨fun text => ?_, ?_⟩, rfl, rfl, rfl, rfl, rfl, rfl⟩
  · rw [hid]; rfl
  · rw [hid]; rfl

/-- Concrete instance of C2: an uninstalled font never commits a load:
the joiner stays empty and no refresh fires. -/
theorem C2_failures_silent_witness :
    loadResult testEnv (.str "notinstalled") = none ∧
    (∀ e ∈ [Event.load (.str "notinstalled")], ∃ d, e = Event.load d) ∧
    joinerOutput (run testEnv (enableLigatures (mkMockTerminal (.str "notinstalled")))
        [Event.load (.str "notinstalled")]) sampleInput = [] ∧
    (run testEnv (enableLigatures (mkMockTerminal (.str "notinstalled")))
        [Event.load (.str "notinstalled")]).refreshCount = 0 :=
  have hevs : ∀ e ∈ [Event.load (ConfigVal.str "notinstalled")], ∃ d, e = Event.load d :=
    fun e he => ⟨.str "notinstalled", by simpa using he⟩
  have h := C2_failures_silent testEnv (.str "notinstalled")
    [Event.load (.str "notinstalled")] rfl hevs
  ⟨rfl, hevs, h.1.1 sampleInput, h.1.2⟩

/-- C3: after a successful font load — signalled by exactly one refresh
call — the joiner on `"a -> b www c"` returns `[[2,4],[7,10]]` when the
configuration resolves and loads to the Fira Code fixture, and `[[2,4]]`
when it resolves and loads to the Iosevka fixture. -/
theorem C3_fixture_ranges (cF cI : ConfigVal)
    (hF : loadResult testEnv cF = some firaCodeRanges)
    (hI : loadResult testEnv cI = some iosevkaRanges) :
    (run testEnv (enableLigatures (mkMockTerminal cF)) [.load cF]).refreshCount = 1 ∧
    joinerOutput (run testEnv (enableLigatures (mkMockTerminal cF)) [.load cF]) sampleInput
      = [(2, 4), (7, 10)] ∧
    (run testEnv (enableLigatures (mkMockTerminal cI)) [.load cI]).refreshCount = 1 ∧
    joinerOutput (run testEnv (enableLigatures (mkMockTerminal cI)) [.load cI]) sampleInput
      = [(2, 4)] := by
  have eF : run testEnv (enableLigatures (mkMockTerminal cF)) [.load cF]
      = { config := cF, joinerSlot := some 1, rules := some firaCodeRanges,
          refreshCount := 1 } := by
    simp [run, step, completeLoad, enableLigatures, mkMockTerminal, hF]
  have eI : run testEnv (enableLigatures (mkMockTerminal cI)) [.load cI]
      = { config := cI, joinerSlot := some 1, rules := some iosevkaRanges,
          refreshCount := 1 } := by
    simp [run, step, completeLoad, enableLigatures, mkMockTerminal, hI]
  refine ⟨by rw [eF], ?_, by rw [eI], ?_⟩
  · rw [eF]
    show firaCodeRanges sampleInput = [(2, 4), (7, 10)]
    decide
  · rw [eI]
    show iosevkaRanges sampleInput = [(2, 4)]
    decide

/-- Concrete instance of C3 at the test suite's configurations. -/
theorem C3_fixture_ranges_witness :
    loadResult testEnv (.str "Fira Code, monospace") = some firaCodeRanges ∧
    loadResult testEnv (.str "Iosevka") = some iosevkaRanges ∧
    joinerOutput (run testEnv (enableLigatures (mkMockTerminal (.str "Fira Code, monospace")))
        [.load (.str "Fira Code, monospace")]) sampleInput = [(2, 4), (7, 10)] ∧
    joinerOutput (run testEnv (enableLigatures (mkMockTerminal (.str "Iosevka")))
        [.load (.str "Iosevka")]) sampleInput = [(2, 4)] :=
  have h := C3_fixture_ranges (.str "Fira Code, monospace") (.str "Iosevka") rfl rfl
  ⟨rfl, rfl, h.2.1, h.2.2.2⟩

/-- C4: before any font load has completed for a terminal (no refresh
has been observed), every call of the joiner returns `[]`, whatever the
input text. -/
theorem C4_empty_before_load (env : Env) (c : ConfigVal) (evs : List Event) (text : String)
    (h : (run env (enableLigatures (mkMockTerminal c)) evs).refreshCount = 0) :
    joinerOutput (run env (enableLigatures (mkMockTerminal c)) evs) text = [] := by
  have hnone := rules_none_of_no_refresh env evs (enableLigatures (mkMockTerminal c)) rfl h
  simp [joinerOutput, hnone]

/-- Concrete instance of C4: the joiner of a freshly enabled terminal
returns no ranges while its load is still pending, even with a stale
load completion in flight. -/
theorem C4_empty_before_load_witness :
    (run testEnv (enableLigatures (mkMockTerminal (.str "Fira Code, monospace")))
        [.load (.str "Iosevka")]).refreshCount = 0 ∧
    joinerOutput (run testEnv (enableLigatures (mkMockTerminal (.str "Fira Code, monospace")))
        [.load (.str "Iosevka")]) sampleInput = [] :=
  ⟨rfl, C4_empty_before_load testEnv (.str "Fira Code, monospace")
    [.load (.str "Iosevka")] sampleInput rfl⟩

/-- C5: isolation of terminal instances: the first terminal's joiner
output depends only on the events addressed to it — for any two system
runs whose first-terminal event subsequences agree, the first terminal's
joiner output is identical, whatever the second terminal's configuration,
events and load timing are. -/
theorem C5_terminal_isolation (env : Env) (t1 t2 t2' : TermState)
    (evs evs' : List TEvent) (text : String)
    (h : projT1 evs = projT1 evs') :
    joinerOutput (sysRun env (t1, t2) evs).1 text
      = joinerOutput (sysRun env (t1, t2') evs').1 text := by
  rw [sysRun_fst env evs (t1, t2), sysRun_fst env evs' (t1, t2'), h]

/-- Concrete instance of C5: the Fira Code terminal's ranges are the
same whether the second terminal runs Iosevka and completes its load
first, or is configured differently and never loads. -/
theorem C5_terminal_isolation_witness :
    projT1 [TEvent.e2 (.load (.str "Iosevka")), TEvent.e1 (.load (.str "Fira Code, monospace"))]
      = projT1 [TEvent.e1 (.load (.str "Fira Code, monospace"))] ∧
    joinerOutput (sysRun testEnv
        (enableLigatures (mkMockTerminal (.str "Fira Code, monospace")),
          enableLigatures (mkMockTerminal (.str "Iosevka")))
        [TEvent.e2 (.load (.str "Iosevka")),
          TEvent.e1 (.load (.str "Fira Code, monospace"))]).1 sampleInput
      = joinerOutput (sysRun testEnv
        (enableLigatures (mkMockTerminal (.str "Fira Code, monospace")),
          enableLigatures (mkMockTerminal (.str "Nonexistant Font")))
        [TEvent.e1 (.load (.str "Fira Code, monospace"))]).1 sampleInput :=
  ⟨rfl, C5_terminal_isolation testEnv
    (enableLigatures (mkMockTerminal (.str "Fira Code, monospace")))
    (enableLigatures (mkMockTerminal (.str "Iosevka")))
    (enableLigatures (mkMockTerminal (.str "Nonexistant Font")))
    [TEvent.e2 (.load (.str "Iosevka")), TEvent.e1 (.load (.str "Fira Code, monospace"))]
    [TEvent.e1 (.load (.str "Fira Code, monospace"))] sampleInput rfl⟩

/-- C6: font resolution scans the parsed candidates in list order and
selects the first that exists in the index and is monospace: candidates
that do not so resolve fall through, a resolving candidate is taken
immediately, and concretely `notinstalled, Fira Code, monospace`
resolves exactly as `Fira Code` — to the Fira Code fixture. -/
theorem C6_first_match_fallthrough (index : FontIndex) (pre post : List String)
    (n : String) (info : FontInfo) (rest : List String)
    (hpre : ∀ m ∈ pre, lookupMono index m = none)
    (hn : lookupMono index n = some info) :
    resolveFamilies index (pre ++ post) = resolveFamilies index post ∧
    resolveFamilies index (n :: rest) = some info ∧
    resolveConfig testIndex (.str "notinstalled, Fira Code, monospace")
      = resolveConfig testIndex (.str "Fira Code") ∧
    resolveConfig testIndex (.str "notinstalled, Fira Code, monospace")
      = some { path := "firaCode.otf", monospace := true } :=
  ⟨resolveFamilies_append_none index pre hpre post,
    by simp [resolveFamilies, hn], by decide, by decide⟩

/-- Concrete instance of C6 at the fixture index: `notinstalled` falls
through and `Fira Code` is selected. -/
theorem C6_first_match_fallthrough_witness :
    (∀ m ∈ ["notinstalled"], lookupMono testIndex m = none) ∧
    lookupMono testIndex "Fira Code" = some { path := "firaCode.otf", monospace := true } ∧
    resolveFamilies testIndex (["notinstalled"] ++ ["Fira Code", "monospace"])
      = resolveFamilies testIndex ["Fira Code", "monospace"] ∧
    resolveFamilies testIndex ["Fira Code", "monospace"]
      = some { path := "firaCode.otf", monospace := true } :=
  have h := C6_first_match_fallthrough testIndex ["notinstalled"] ["Fira Code", "monospace"]
    "Fira Code" { path := "firaCode.otf", monospace := true } ["monospace"]
    (by decide) (by decide)
  ⟨by decide, by decide, h.1, by decide⟩

/-- C7: quoted and unquoted font names are parsed identically: the
configuration `"Fira Code", monospace` parses to the same candidate
list, resolves to the same font, and yields the same joiner ranges
after its load (with exactly one refresh) as `Fira Code, monospace`. -/
theorem C7_quoted_equals_unquoted (text : String) :
    parseFontFamilies "\"Fira Code\", monospace" = parseFontFamilies "Fira Code, monospace" ∧
    resolveConfig testIndex (.str "\"Fira Code\", monospace")
      = resolveConfig testIndex (.str "Fira Code, monospace") ∧
    joinerOutput (run testEnv
        (enableLigatures (mkMockTerminal (.str "\"Fira Code\", monospace")))
        [.load (.str "\"Fira Code\", monospace")]) text
      = joinerOutput (run testEnv
        (enableLigatures (mkMockTerminal (.str "Fira Code, monospace")))
        [.load (.str "Fira Code, monospace")]) text ∧
    (run testEnv (enableLigatures (mkMockTerminal (.str "\"Fira Code\", monospace")))
        [.load (.str "\"Fira Code\", monospace")]).refreshCount = 1 :=
  ⟨by decide, by decide, rfl, rfl⟩

/-- C8: `enable(terminal)` is idempotent: a second invocation on an
already-enabled terminal is a no-op beyond re-registering the callback —
the state is unchanged, exactly one joiner slot results, and subsequent
events produce exactly the refresh calls a single invocation would. -/
theorem C8_enable_idempotent (env : Env) (t : TermState) (evs : List Event) :
    enableLigatures (enableLigatures t) = enableLigatures t ∧
    (enableLigatures t).joinerSlot = some 1 ∧
    (run env (enableLigatures (enableLigatures t)) evs).refreshCount
      = (run env (enableLigatures t) evs).refreshCount :=
  ⟨rfl, rfl, rfl⟩

/-- C9: after any change of the font-family value the joiner returns
`[]` for every text — even when a rule set had been loaded before the
change — and keeps returning `[]` along any events that complete no
load for the new configuration; a loaded rule set is never retained
across configuration changes. -/
theorem C9_no_reuse_across_change (env : Env) (t : TermState) (c : ConfigVal)
    (evs : List Event)
    (hne : c ≠ t.config)
    (hnoload : (run env (setFont t c) evs).refreshCount = t.refreshCount) :
    (∀ text, joinerOutput (setFont t c) text = []) ∧
    ∀ text, joinerOutput (run env (setFont t c) evs) text = [] := by
  have hset : setFont t c = { t with config := c, rules := none } := by
    simp [setFont, hne]
  have hrules : (setFont t c).rules = none := by rw [hset]
  have hcount : (setFont t c).refreshCount = t.refreshCount := by rw [hset]
  have hfin := rules_none_of_no_refresh env evs (setFont t c) hrules
    (by rw [hnoload, hcount])
  exact ⟨fun text => by simp [joinerOutput, hrules],
    fun text => by simp [joinerOutput, hfin]⟩

/-- Concrete instance of C9: a terminal with the Iosevka rule set loaded
switches to Fira Code; the joiner reverts to `[]` and stays empty while
only a stale Iosevka completion arrives. -/
theorem C9_no_reuse_across_change_witness :
    (ConfigVal.str "Fira Code"
      ≠ (run testEnv (enableLigatures (mkMockTerminal (.str "Iosevka")))
          [.load (.str "Iosevka")]).config) ∧
    (run testEnv
        (setFont (run testEnv (enableLigatures (mkMockTerminal (.str "Iosevka")))
          [.load (.str "Iosevka")]) (.str "Fira Code"))
        [.load (.str "Iosevka")]).refreshCount
      = (run testEnv (enableLigatures (mkMockTerminal (.str "Iosevka")))
          [.load (.str "Iosevka")]).refreshCount ∧
    joinerOutput (setFont (run testEnv (enableLigatures (mkMockTerminal (.str "Iosevka")))
        [.load (.str "Iosevka")]) (.str "Fira Code")) sampleInput = [] ∧
    joinerOutput (run testEnv
        (setFont (run testEnv (enableLigatures (mkMockTerminal (.str "Iosevka")))
          [.load (.str "Iosevka")]) (.str "Fira Code"))
        [.load (.str "Iosevka")]) sampleInput = [] :=
  have h := C9_no_reuse_across_change testEnv
    (run testEnv (enableLigatures (mkMockTerminal (.str "Iosevka"))) [.load (.str "Iosevka")])
    (.str "Fira Code") [.load (.str "Iosevka")] (by decide) rfl
  ⟨by decide, rfl, h.1 sampleInput, h.2 sampleInput⟩

/-- C10: `enableLigatures(terminal)` registers the character joiner
synchronously: before the call the terminal's joiner is undefined, and
immediately after the call — before any asynchronous resolution or load
settles (no refresh observed, nothing loaded) — the registered joiner is
a defined function from text to ranges. -/
theorem C10_registers_synchronously (c : ConfigVal) (text : String) :
    registeredJoiner (mkMockTerminal c) = none ∧
    (registeredJoiner (enableLigatures (mkMockTerminal c))).isSome = true ∧
    (enableLigatures (mkMockTerminal c)).refreshCount = 0 ∧
    joinerOutput (enableLigatures (mkMockTerminal c)) text = [] :=
  ⟨rfl, rfl, rfl, rfl⟩

end Ligatures
